import Mathlib

/-!
# resdb: `performance_generator.h`

A shallow embedding of `platform/consensus/ordering/ordering/common/performance_generator.h`
(classes `PerformancGeneratorBasic` and `PerformancGenerator<RequestType>`), followed by
the properties established about it.

Conventions.
* A `std::string` of bytes is a `List Nat`.
* A protobuf message is a structure holding its fields; a default-constructed message has
  every field at its protobuf default.
* A method that mutates `this` or an out-parameter returns the objects after the call.
* Collaborators declared outside this header (protobuf serialisation, the signature
  verifier, the hash function, enum constants) are parameters.
-/

namespace resdb

/-- A `std::string` holding bytes. -/
abbrev Bytes := List Nat

/-- Modelled from the spec: the `Signature` carried by the optional `data_signature` field
of the wire shape (the protobuf declaration is outside this header); held as its bytes. -/
structure SignatureInfo where
  signature : Bytes
deriving DecidableEq, Repr

/-- Modelled from the spec: the outer `Request` envelope, with the fields of the wire shape
`{type, data, data_signature, hash, proxy_id}` (the protobuf declaration is outside this
header). An unset `data_signature` is `none`. -/
structure Request where
  type : Int
  data : Bytes
  data_signature : Option SignatureInfo
  hash : Bytes
  proxy_id : Int
deriving DecidableEq, Repr

/-- The template parameter `RequestType` of `PerformancGenerator<RequestType>`: a message
offering the accessors the template body uses, `mutable_data`, `mutable_data_signature`,
`set_hash`, `set_proxy_id` and `set_type`. -/
structure RequestType where
  type : Int
  data : Bytes
  data_signature : Option SignatureInfo
  hash : Bytes
  proxy_id : Int
deriving DecidableEq, Repr

/-- The message `RequestType custom_request;` right after default construction. -/
def RequestType.default : RequestType :=
  { type := 0, data := [], data_signature := none, hash := [], proxy_id := 0 }

/-- Modelled from the spec: a batch envelope, "a finite ordered sequence of user requests"
(the protobuf declaration is outside this header). A user request is held as its bytes. -/
structure BatchUserRequest where
  user_requests : List Bytes
deriving DecidableEq, Repr

/-- The result of `config_.GetSelfInfo()`; only `id()` is read by this header. -/
structure ReplicaInfo where
  id : Int
deriving DecidableEq, Repr

/-- The part of `ResDBConfig` this development reads: the local node (`GetSelfInfo`) and,
modelled from the spec, the fault bound `f` of the quorum threshold `f+1`. -/
structure ResDBConfig where
  self_info : ReplicaInfo
  f : Nat
deriving DecidableEq, Repr

/-- `config_.GetSelfInfo()`. -/
def ResDBConfig.GetSelfInfo (c : ResDBConfig) : ReplicaInfo := c.self_info

/-- The object behind `SignatureVerifier* verifier_`: `SignMessage` returns an
`absl::StatusOr<SignatureInfo>`, here `Except` with the status message as the error. -/
structure SignatureVerifier where
  SignMessage : Bytes → Except String SignatureInfo

/-- Collaborators of `ConverToRequest` that are declared outside this header. -/
structure Protocol where
  /-- `BatchUserRequest::SerializeToString`, as the bytes it stores. -/
  SerializeBatch : BatchUserRequest → Bytes
  /-- `RequestType::SerializeToString`, as the bytes it stores. -/
  SerializeRequestType : RequestType → Bytes
  /-- `BatchUserRequest::ParseFromString`. -/
  ParseBatch : Bytes → Option BatchUserRequest
  /-- `RequestType::ParseFromString`. -/
  ParseRequestType : Bytes → Option RequestType
  /-- The static `SignatureVerifier::CalculateHash`. -/
  CalculateHash : Bytes → Bytes
  /-- The enum constant `Request::TYPE_CLIENT_REQUEST`. -/
  TYPE_CLIENT_REQUEST : Int

/-- `struct QueueItem { std::unique_ptr<Request> user_request; }`. -/
structure QueueItem where
  user_request : Option Request
deriving DecidableEq, Repr

/-- Modelled from the spec: the atomic status of a transaction record,
"status ∈ {Pending, Committed, Done}" (`DataCollector::TransactionStatue` is declared
outside this header). -/
inductive TransactionStatue where
  | Pending
  | Committed
  | Done
deriving DecidableEq, Repr

/-- Modelled from the spec: the result code of `AddResponseMsg`, "distinguishing first-time
record creation, count incremented without transition, quorum just reached (callback
fired), and already-done (duplicate, ignored)" (`DataCollector::CollectorResultCode` is
declared outside this header). -/
inductive CollectorResultCode where
  | Created
  | Incremented
  | QuorumReached
  | AlreadyDone
deriving DecidableEq, Repr

/-- Modelled from the spec: the unit tracked by the collector, holding "a mapping from
matching-response fingerprint to count" and the atomic status (the collector pool is
declared outside this header). -/
structure TransactionRecord where
  received_count : Bytes → Nat
  status : TransactionStatue

/-- Modelled from the spec: an incoming response, "tagged with a transaction identifier and
a response payload/fingerprint". -/
structure ResponseMsg where
  type : Int
  id : String
  fingerprint : Bytes
  payload : Bytes
deriving DecidableEq, Repr

/-- The data members of `PerformancGeneratorBasic`. Raw pointers to collaborators this
header never dereferences are kept as addresses; the thread array and the mutex hold no
data. The promise and the future share one state, `none` until a value is set. -/
structure PerformancGeneratorBasic where
  config_ : ResDBConfig
  system_info_ : Nat
  verifier_ : Option SignatureVerifier
  replica_communicator_ : Nat
  collector_pool_ : String → Option TransactionRecord
  batch_queue_ : List QueueItem
  stop_ : Bool
  global_stats_ : Nat
  send_num_ : Nat
  total_num_ : Int
  data_func_ : Option (Unit → Bytes)
  eval_ready_promise_ : Option Bool
  eval_started_ : Bool

/-- The class template `PerformancGenerator<RequestType>` adds no data member. -/
abbrev PerformancGenerator := PerformancGeneratorBasic

/-- The objects a call of `ConverToRequest` can reach, as they are when it returns:
`this`, the batch behind `const BatchUserRequest&`, the request behind `Request*`, and the
lines written to the error log. -/
structure ConvertResult where
  self : PerformancGeneratorBasic
  batch_request : BatchUserRequest
  new_request : Request
  errors : List String

/-- `virtual void ConverToRequest(const BatchUserRequest&, Request*) {}` of the base
class: an empty body. -/
def PerformancGeneratorBasic.ConverToRequest (self : PerformancGeneratorBasic)
    (batch_request : BatchUserRequest) (new_request : Request) : ConvertResult :=
  { self := self, batch_request := batch_request, new_request := new_request, errors := [] }

/-- `virtual void PostSend(){};`: an empty body. -/
def PerformancGeneratorBasic.PostSend (self : PerformancGeneratorBasic) :
    PerformancGeneratorBasic :=
  self

/-- The override `PerformancGenerator<RequestType>::ConverToRequest`. -/
def PerformancGenerator.ConverToRequest (env : Protocol) (self : PerformancGenerator)
    (batch_request : BatchUserRequest) (new_request : Request) : ConvertResult :=
  -- RequestType custom_request;
  let custom_request := RequestType.default
  -- batch_request.SerializeToString(custom_request.mutable_data());
  let custom_request := { custom_request with data := env.SerializeBatch batch_request }
  -- custom_request.set_hash(...); set_proxy_id(...); set_type(...);
  -- custom_request.SerializeToString(new_request->mutable_data());
  let finish (custom_request : RequestType) : ConvertResult :=
    let custom_request :=
      { custom_request with hash := env.CalculateHash custom_request.data }
    let custom_request :=
      { custom_request with proxy_id := self.config_.GetSelfInfo.id }
    let custom_request := { custom_request with type := env.TYPE_CLIENT_REQUEST }
    { self := self
      batch_request := batch_request
      new_request := { new_request with data := env.SerializeRequestType custom_request }
      errors := [] }
  -- if (verifier_) {
  match self.verifier_ with
  | some verifier =>
    -- auto signature_or = verifier_->SignMessage(custom_request.data());
    match verifier.SignMessage custom_request.data with
    | Except.error _ =>
      -- LOG(ERROR) << "Sign message fail"; return;
      { self := self, batch_request := batch_request, new_request := new_request,
        errors := ["Sign message fail"] }
    | Except.ok signature =>
      -- *custom_request.mutable_data_signature() = *signature_or;
      finish { custom_request with data_signature := some signature }
  | none => finish custom_request

/-- The call took the early `return` of the signing branch: a verifier is configured and
`SignMessage` on the serialized batch did not return `ok`. -/
def SignFails (env : Protocol) (self : PerformancGenerator)
    (batch_request : BatchUserRequest) : Bool :=
  match self.verifier_ with
  | some verifier =>
    match verifier.SignMessage (env.SerializeBatch batch_request) with
    | Except.error _ => true
    | Except.ok _ => false
  | none => false

/-- Modelled from the spec: the constructor `PerformancGeneratorBasic(config,
replica_communicator, system_info, verifier)`, whose body is outside this header. It
stores its arguments; the pool and the queue start empty, the counters at zero, the stop
flag and `eval_started_` cleared and the evaluation gate ("a one-shot signal") not ready. -/
def PerformancGeneratorBasic.new (config : ResDBConfig) (replica_communicator : Nat)
    (system_info : Nat) (verifier : Option SignatureVerifier) : PerformancGeneratorBasic :=
  { config_ := config
    system_info_ := system_info
    verifier_ := verifier
    replica_communicator_ := replica_communicator
    collector_pool_ := fun _ => none
    batch_queue_ := []
    stop_ := false
    global_stats_ := 0
    send_num_ := 0
    total_num_ := 0
    data_func_ := none
    eval_ready_promise_ := none
    eval_started_ := false }

/-- Modelled from the spec: `MayConsensusChangeStatus(type, received_count, status)`, whose
body is outside this header. "Given the current received count and the current atomic
status, decides whether the record should transition (e.g., Pending → Committed once
`received_count ≥ f+1`, Committed → Done once the aggregate result has been delivered)",
"with a single atomic compare-and-exchange against the expected prior status". Both
transitions the spec lists are here. The delivery of the aggregate result is not among the
arguments: the collector asks for Committed → Done after it has delivered the result. The
spec gives `type` no part in the decision. The result is the returned flag and the status
after the call. -/
def PerformancGeneratorBasic.MayConsensusChangeStatus (self : PerformancGeneratorBasic)
    (_type : Int) (received_count : Int) (status : TransactionStatue) :
    Bool × TransactionStatue :=
  match status with
  | TransactionStatue.Pending =>
    -- compare-and-exchange, expected Pending, desired Committed
    if (self.config_.f : Int) + 1 ≤ received_count then (true, TransactionStatue.Committed)
    else (false, TransactionStatue.Pending)
  | TransactionStatue.Committed =>
    -- compare-and-exchange, expected Committed, desired Done
    (true, TransactionStatue.Done)
  | TransactionStatue.Done => (false, TransactionStatue.Done)

/-- What a call of `AddResponseMsg` leaves behind: the returned code, the generator, and
the argument the completion callback was invoked with, if it was invoked. -/
structure AddResponseResult where
  code : CollectorResultCode
  self : PerformancGeneratorBasic
  called_back : Option Bytes

/-- Modelled from the spec: `AddResponseMsg(response, callback)`, whose body is outside this
header. It "looks up (or lazily creates) the TransactionRecord for that identifier",
"increments the count associated with the response's fingerprint and evaluates
`MayConsensusChangeStatus`"; "on a successful Pending→Committed transition, the collector
invokes the stored callback with the aggregated response payload and updates the
completion counter; the record then remains in the pool (status Done)", reached through
the Committed → Done transition once the result has been delivered. The aggregated
payload is the payload of the response that completed the quorum. -/
def PerformancGeneratorBasic.AddResponseMsg (self : PerformancGeneratorBasic)
    (request : ResponseMsg) : AddResponseResult :=
  let found := self.collector_pool_ request.id
  let record : TransactionRecord :=
    found.getD { received_count := fun _ => 0, status := TransactionStatue.Pending }
  let count := record.received_count request.fingerprint + 1
  let received := Function.update record.received_count request.fingerprint count
  let decision := self.MayConsensusChangeStatus request.type count record.status
  if decision.1 = true ∧ record.status = TransactionStatue.Pending then
    -- Pending → Committed succeeded: the callback is invoked and the counter updated;
    -- the result being delivered, the record moves on, Committed → Done
    let settled := self.MayConsensusChangeStatus request.type count decision.2
    { code := CollectorResultCode.QuorumReached
      self :=
        { self with
          collector_pool_ := Function.update self.collector_pool_ request.id
            (some { received_count := received, status := settled.2 })
          total_num_ := self.total_num_ + 1 }
      called_back := some request.payload }
  else
    { code :=
        if record.status = TransactionStatue.Done then CollectorResultCode.AlreadyDone
        else if found.isNone then CollectorResultCode.Created
        else CollectorResultCode.Incremented
      self :=
        { self with
          collector_pool_ := Function.update self.collector_pool_ request.id
            (some { received_count := received, status := decision.2 }) }
      called_back := none }

/-- A generator together with the invocations of the completion callback made so far,
oldest first, each with the transaction identifier it completed. -/
structure Delivery where
  self : PerformancGeneratorBasic
  callbacks : List (String × Bytes)

/-- One call of `AddResponseMsg`, recording the callback invocation it makes, if any. -/
def Delivery.step (d : Delivery) (request : ResponseMsg) : Delivery :=
  let out := d.self.AddResponseMsg request
  { self := out.self
    callbacks := d.callbacks ++ (out.called_back.map (fun p => (request.id, p))).toList }

/-- A sequence of `AddResponseMsg` calls, in order, on a generator. -/
def deliverAll (self : PerformancGeneratorBasic) (requests : List ResponseMsg) : Delivery :=
  requests.foldl Delivery.step { self := self, callbacks := [] }

/-- How many times the completion callback was invoked for an identifier. -/
def Delivery.invocations (d : Delivery) (id : String) : Nat :=
  d.callbacks.countP (fun c => decide (c.1 = id))

/-- How many of the delivered responses carry the identifier and the fingerprint. -/
def matching (requests : List ResponseMsg) (id : String) (fingerprint : Bytes) : Nat :=
  requests.countP (fun r => decide (r.id = id) && decide (r.fingerprint = fingerprint))

/-- How a call ends: it returns to its caller, it waits without returning, or it leaves by
an exception. -/
inductive Completion where
  | Returned
  | Blocked
  | Threw
deriving DecidableEq, Repr

/-- `std::promise<bool>::set_value` on the state shared by `eval_ready_promise_` and
`eval_ready_future_`: it stores the value when none is held, and on a promise that already
holds one it throws `std::future_error` and stores nothing. -/
def promise_set_value (shared : Option Bool) (value : Bool) : Except String (Option Bool) :=
  match shared with
  | none => Except.ok (some value)
  | some _ => Except.error "promise already satisfied"

/-- What a call of `StartEval` leaves behind: the generator, how many times the call
released the evaluation gate, and how the call ended. -/
structure StartEvalResult where
  self : PerformancGeneratorBasic
  releases : Nat
  completion : Completion

/-- Modelled from the spec: `StartEval()`, whose body is outside this header. It
"idempotently releases the evaluation gate exactly once (subsequent calls are no-ops)":
a call finding `eval_started_` set does nothing; the first call sets `eval_started_` and
releases the gate by setting the value of `eval_ready_promise_`. It waits for nothing.
The returned `int` is not described and is left out. -/
def PerformancGeneratorBasic.StartEval (self : PerformancGeneratorBasic) : StartEvalResult :=
  if self.eval_started_ then
    { self := self, releases := 0, completion := Completion.Returned }
  else
    let started := { self with eval_started_ := true }
    match promise_set_value self.eval_ready_promise_ true with
    | Except.ok shared =>
      { self := { started with eval_ready_promise_ := shared }
        releases := 1
        completion := Completion.Returned }
    | Except.error _ => { self := started, releases := 0, completion := Completion.Threw }

/-- The evaluation gate is ready: a value has been set in `eval_ready_promise_`. -/
def PerformancGeneratorBasic.gateReady (self : PerformancGeneratorBasic) : Bool :=
  self.eval_ready_promise_.isSome

/-- Modelled from the spec: the wait of a producer on the evaluation gate, whose body is
outside this header: "all producer threads block on it before producing their first
request". The wait returns once the gate is ready and blocks until then. -/
def PerformancGeneratorBasic.WaitEvalReady (self : PerformancGeneratorBasic) : Completion :=
  if self.gateReady then Completion.Returned else Completion.Blocked

/-- The count the pool holds for an identifier and a fingerprint; zero without a record. -/
def PerformancGeneratorBasic.countOf (self : PerformancGeneratorBasic) (id : String)
    (fingerprint : Bytes) : Nat :=
  match self.collector_pool_ id with
  | none => 0
  | some record => record.received_count fingerprint

/-- The status the pool holds for an identifier; a record yet to be created is Pending. -/
def PerformancGeneratorBasic.statusOf (self : PerformancGeneratorBasic) (id : String) :
    TransactionStatue :=
  match self.collector_pool_ id with
  | none => TransactionStatue.Pending
  | some record => record.status

/-- The collector invariant after the calls in `history`: an identifier is either Pending,
with no callback made, every count equal to the number of matching deliveries and below
the threshold; or Done, with exactly one callback made and some fingerprint delivered at
least `f+1` times. -/
def Collected (history : List ResponseMsg) (d : Delivery) : Prop :=
  ∀ id : String,
    (d.self.statusOf id = TransactionStatue.Pending ∧ d.invocations id = 0 ∧
      ∀ fp, d.self.countOf id fp = matching history id fp ∧
        matching history id fp < d.self.config_.f + 1) ∨
    (d.self.statusOf id = TransactionStatue.Done ∧ d.invocations id = 1 ∧
      ∃ fp, d.self.config_.f + 1 ≤ matching history id fp)

/-- A protobuf-like codec over `Bytes` used to instantiate `Protocol`: a message is written
as the one-element string holding the code of its fields. The hash is the identity. -/
def sampleProtocol : Protocol :=
  { SerializeBatch := fun b => [Encodable.encode b.user_requests]
    SerializeRequestType := fun r =>
      [Encodable.encode
        (r.type, r.data, r.data_signature.map SignatureInfo.signature, r.hash, r.proxy_id)]
    ParseBatch := fun s =>
      match s with
      | [n] => (Encodable.decode n : Option (List Bytes)).map BatchUserRequest.mk
      | _ => none
    ParseRequestType := fun s =>
      match s with
      | [n] =>
        (Encodable.decode n : Option (Int × Bytes × Option Bytes × Bytes × Int)).map
          (fun t =>
            { type := t.1, data := t.2.1, data_signature := t.2.2.1.map SignatureInfo.mk,
              hash := t.2.2.2.1, proxy_id := t.2.2.2.2 })
      | _ => none
    CalculateHash := fun s => s
    TYPE_CLIENT_REQUEST := 1 }

/-- A verifier whose `SignMessage` always fails. -/
def failingVerifier : SignatureVerifier :=
  { SignMessage := fun _ => Except.error "no private key" }

/-- A verifier whose signature over a message is the reversed message. -/
def sampleVerifier : SignatureVerifier :=
  { SignMessage := fun s => Except.ok { signature := s.reverse } }

/-- A configuration: node 7, fault bound 2 (quorum threshold 3). -/
def sampleConfig : ResDBConfig :=
  { self_info := { id := 7 }, f := 2 }

/-- A batch of two user requests. -/
def sampleBatch : BatchUserRequest :=
  { user_requests := [[1, 2, 3], [4, 5]] }

/-- An output request that already carries content in every field. -/
def sampleRequest : Request :=
  { type := 9, data := [42], data_signature := some { signature := [8] }, hash := [6],
    proxy_id := 3 }

/-- A response for "tx-7" with a fixed fingerprint. -/
def tx7 : ResponseMsg :=
  { type := 2, id := "tx-7", fingerprint := [10, 20], payload := [30] }

/-! ## Conversion of a batch into the outer request -/

/-- The sample codec parses a serialized batch back to the batch. -/
theorem sampleProtocol_batch (b : BatchUserRequest) :
    sampleProtocol.ParseBatch (sampleProtocol.SerializeBatch b) = some b := by
  simp [sampleProtocol]

/-- The sample codec parses a serialized message back to the message. -/
theorem sampleProtocol_message (r : RequestType) :
    sampleProtocol.ParseRequestType (sampleProtocol.SerializeRequestType r) = some r := by
  obtain ⟨t, d, sg, h, p⟩ := r
  cases sg <;> simp only [sampleProtocol, Encodable.encodek, Option.map_some', Option.map_none']

/-- What the override writes on the path that reaches the final `SerializeToString`: the
output request with its `data` replaced by the serialized stamped message. -/
theorem ConverToRequest_of_not_fails (env : Protocol) (self : PerformancGenerator)
    (batch_request : BatchUserRequest) (new_request : Request)
    (h : SignFails env self batch_request = false) :
    ∃ sig : Option SignatureInfo,
      PerformancGenerator.ConverToRequest env self batch_request new_request =
        { self := self
          batch_request := batch_request
          new_request :=
            { new_request with
              data := env.SerializeRequestType
                { type := env.TYPE_CLIENT_REQUEST
                  data := env.SerializeBatch batch_request
                  data_signature := sig
                  hash := env.CalculateHash (env.SerializeBatch batch_request)
                  proxy_id := self.config_.self_info.id } }
          errors := [] } := by
  unfold SignFails at h
  unfold PerformancGenerator.ConverToRequest
  cases hv : self.verifier_ with
  | none => exact ⟨none, by simp [RequestType.default, ResDBConfig.GetSelfInfo]⟩
  | some v =>
    rw [hv] at h
    cases hs : v.SignMessage (env.SerializeBatch batch_request) with
    | error e => simp [hs] at h
    | ok sg => exact ⟨some sg, by simp [RequestType.default, ResDBConfig.GetSelfInfo, hs]⟩

/-- C1: when a verifier is configured and `SignMessage` on the serialized batch fails, the
override `ConverToRequest` leaves the output request exactly as it was on entry: its `data`
field is not written, so no partial or unsigned payload is produced for that batch. -/
theorem ConverToRequest_sign_failure_keeps_request (env : Protocol)
    (self : PerformancGenerator) (batch_request : BatchUserRequest) (new_request : Request)
    (verifier : SignatureVerifier) (status : String)
    (hv : self.verifier_ = some verifier)
    (hs : verifier.SignMessage (env.SerializeBatch batch_request) = Except.error status) :
    (PerformancGenerator.ConverToRequest env self batch_request new_request).new_request
      = new_request := by
  unfold PerformancGenerator.ConverToRequest
  simp [hv, hs, RequestType.default]

/-- Witness of C1: node 7 with a verifier that cannot sign, the sample batch, and an output
request already holding data. -/
theorem ConverToRequest_sign_failure_keeps_request_witness :
    (PerformancGeneratorBasic.new sampleConfig 0 0 (some failingVerifier)).verifier_
        = some failingVerifier ∧
      failingVerifier.SignMessage (sampleProtocol.SerializeBatch sampleBatch)
        = Except.error "no private key" ∧
      (PerformancGenerator.ConverToRequest sampleProtocol
        (PerformancGeneratorBasic.new sampleConfig 0 0 (some failingVerifier))
        sampleBatch sampleRequest).new_request = sampleRequest :=
  ⟨rfl, rfl,
    ConverToRequest_sign_failure_keeps_request sampleProtocol
      (PerformancGeneratorBasic.new sampleConfig 0 0 (some failingVerifier))
      sampleBatch sampleRequest failingVerifier "no private key" rfl rfl⟩

/-- C2: when a verifier is configured and signing succeeds, the override sets the output
request's `data` to the serialization of a `RequestType` message whose `data` is the
serialized batch, whose `data_signature` is the signature over exactly those bytes, whose
`hash` is `CalculateHash` of those same bytes, whose `proxy_id` is the local node id of
the configuration, and whose `type` is `TYPE_CLIENT_REQUEST`. -/
theorem ConverToRequest_signed_payload (env : Protocol) (self : PerformancGenerator)
    (batch_request : BatchUserRequest) (new_request : Request)
    (verifier : SignatureVerifier) (signature : SignatureInfo)
    (hv : self.verifier_ = some verifier)
    (hs : verifier.SignMessage (env.SerializeBatch batch_request) = Except.ok signature) :
    (PerformancGenerator.ConverToRequest env self batch_request new_request).new_request.data
      = env.SerializeRequestType
          { type := env.TYPE_CLIENT_REQUEST
            data := env.SerializeBatch batch_request
            data_signature := some signature
            hash := env.CalculateHash (env.SerializeBatch batch_request)
            proxy_id := self.config_.GetSelfInfo.id } := by
  unfold PerformancGenerator.ConverToRequest
  simp [hv, hs, RequestType.default]

/-- Witness of C2: node 7 with the sample verifier and the sample batch. -/
theorem ConverToRequest_signed_payload_witness :
    (PerformancGeneratorBasic.new sampleConfig 0 0 (some sampleVerifier)).verifier_
        = some sampleVerifier ∧
      sampleVerifier.SignMessage (sampleProtocol.SerializeBatch sampleBatch)
        = Except.ok { signature := (sampleProtocol.SerializeBatch sampleBatch).reverse } ∧
      (PerformancGenerator.ConverToRequest sampleProtocol
        (PerformancGeneratorBasic.new sampleConfig 0 0 (some sampleVerifier))
        sampleBatch sampleRequest).new_request.data
        = sampleProtocol.SerializeRequestType
            { type := sampleProtocol.TYPE_CLIENT_REQUEST
              data := sampleProtocol.SerializeBatch sampleBatch
              data_signature :=
                some { signature := (sampleProtocol.SerializeBatch sampleBatch).reverse }
              hash := sampleProtocol.CalculateHash (sampleProtocol.SerializeBatch sampleBatch)
              proxy_id :=
                (PerformancGeneratorBasic.new sampleConfig 0 0
                  (some sampleVerifier)).config_.GetSelfInfo.id } :=
  ⟨rfl, rfl,
    ConverToRequest_signed_payload sampleProtocol
      (PerformancGeneratorBasic.new sampleConfig 0 0 (some sampleVerifier))
      sampleBatch sampleRequest sampleVerifier _ rfl rfl⟩

/-- C3: when no verifier is configured (`verifier_` is null), the override never takes the
failure path: nothing is logged, the output request's `data` is written, and the embedded
`RequestType` message carries no signature while still carrying the serialized batch, its
hash, the local `proxy_id` and type `TYPE_CLIENT_REQUEST`. -/
theorem ConverToRequest_without_verifier (env : Protocol) (self : PerformancGenerator)
    (batch_request : BatchUserRequest) (new_request : Request)
    (hv : self.verifier_ = none) :
    SignFails env self batch_request = false ∧
      (PerformancGenerator.ConverToRequest env self batch_request new_request).errors = [] ∧
      (PerformancGenerator.ConverToRequest env self batch_request new_request).new_request.data
        = env.SerializeRequestType
            { type := env.TYPE_CLIENT_REQUEST
              data := env.SerializeBatch batch_request
              data_signature := none
              hash := env.CalculateHash (env.SerializeBatch batch_request)
              proxy_id := self.config_.GetSelfInfo.id } := by
  unfold PerformancGenerator.ConverToRequest SignFails
  simp [hv, RequestType.default]

/-- Witness of C3: node 7 without a verifier and the sample batch. -/
theorem ConverToRequest_without_verifier_witness :
    (PerformancGeneratorBasic.new sampleConfig 0 0 none).verifier_ = none ∧
      (PerformancGenerator.ConverToRequest sampleProtocol
        (PerformancGeneratorBasic.new sampleConfig 0 0 none)
        sampleBatch sampleRequest).new_request.data
        = sampleProtocol.SerializeRequestType
            { type := 1
              data := sampleProtocol.SerializeBatch sampleBatch
              data_signature := none
              hash := sampleProtocol.SerializeBatch sampleBatch
              proxy_id := 7 } :=
  ⟨rfl,
    (ConverToRequest_without_verifier sampleProtocol
      (PerformancGeneratorBasic.new sampleConfig 0 0 none)
      sampleBatch sampleRequest rfl).2.2⟩

/-- C4: round trip. Provided parsing returns the message that was serialized (for batches
and for `RequestType` messages), for every batch on which the override does not take the
signing-failure return, parsing the output request's `data` as a `RequestType` message and
then that message's `data` as a `BatchUserRequest` yields the original batch, with the
same user requests in the same order. -/
theorem ConverToRequest_round_trip (env : Protocol)
    (hbatch : ∀ b, env.ParseBatch (env.SerializeBatch b) = some b)
    (hmessage : ∀ r, env.ParseRequestType (env.SerializeRequestType r) = some r)
    (self : PerformancGenerator) (batch_request : BatchUserRequest) (new_request : Request)
    (hok : SignFails env self batch_request = false) :
    (env.ParseRequestType
        (PerformancGenerator.ConverToRequest env self batch_request
          new_request).new_request.data).bind (fun m => env.ParseBatch m.data)
        = some batch_request ∧
      ((env.ParseRequestType
        (PerformancGenerator.ConverToRequest env self batch_request
          new_request).new_request.data).bind (fun m => env.ParseBatch m.data)).map
          BatchUserRequest.user_requests
        = some batch_request.user_requests := by
  obtain ⟨sig, h⟩ := ConverToRequest_of_not_fails env self batch_request new_request hok
  rw [h]
  simp [hmessage, hbatch]

/-- Witness of C4: the sample codec, node 7 with the sample verifier, the sample batch. -/
theorem ConverToRequest_round_trip_witness :
    (∀ b, sampleProtocol.ParseBatch (sampleProtocol.SerializeBatch b) = some b) ∧
      (∀ r, sampleProtocol.ParseRequestType (sampleProtocol.SerializeRequestType r)
        = some r) ∧
      SignFails sampleProtocol
        (PerformancGeneratorBasic.new sampleConfig 0 0 (some sampleVerifier))
        sampleBatch = false ∧
      (sampleProtocol.ParseRequestType
        (PerformancGenerator.ConverToRequest sampleProtocol
          (PerformancGeneratorBasic.new sampleConfig 0 0 (some sampleVerifier))
          sampleBatch sampleRequest).new_request.data).bind
          (fun m => sampleProtocol.ParseBatch m.data)
        = some sampleBatch :=
  ⟨sampleProtocol_batch, sampleProtocol_message, rfl,
    (ConverToRequest_round_trip sampleProtocol sampleProtocol_batch sampleProtocol_message
      (PerformancGeneratorBasic.new sampleConfig 0 0 (some sampleVerifier))
      sampleBatch sampleRequest rfl).1⟩

/-- C9: frame of the override. The only thing `ConverToRequest` changes is the output
request's `data` field: the output request's own `type`, `hash`, `proxy_id` and
`data_signature`, the input batch, and the generator with its configuration are the same
after the call as before. -/
theorem ConverToRequest_frame (env : Protocol) (self : PerformancGenerator)
    (batch_request : BatchUserRequest) (new_request : Request) :
    (PerformancGenerator.ConverToRequest env self batch_request new_request).new_request
        = { new_request with
            data := (PerformancGenerator.ConverToRequest env self batch_request
              new_request).new_request.data } ∧
      (PerformancGenerator.ConverToRequest env self batch_request
        new_request).new_request.type = new_request.type ∧
      (PerformancGenerator.ConverToRequest env self batch_request
        new_request).new_request.hash = new_request.hash ∧
      (PerformancGenerator.ConverToRequest env self batch_request
        new_request).new_request.proxy_id = new_request.proxy_id ∧
      (PerformancGenerator.ConverToRequest env self batch_request
        new_request).new_request.data_signature = new_request.data_signature ∧
      (PerformancGenerator.ConverToRequest env self batch_request
        new_request).batch_request = batch_request ∧
      (PerformancGenerator.ConverToRequest env self batch_request new_request).self
        = self ∧
      (PerformancGenerator.ConverToRequest env self batch_request
        new_request).self.config_ = self.config_ := by
  unfold PerformancGenerator.ConverToRequest
  cases hv : self.verifier_ with
  | none => simp
  | some v =>
    cases hs : v.SignMessage (env.SerializeBatch batch_request) <;>
      simp [hs, RequestType.default]

/-- C10: the base-class `PerformancGeneratorBasic::ConverToRequest` is a no-op: the output
request, the batch and the generator are unchanged after the call and nothing is logged,
so a serialized, hashed, stamped payload comes from the override only. -/
theorem Basic_ConverToRequest_noop (self : PerformancGeneratorBasic)
    (batch_request : BatchUserRequest) (new_request : Request) :
    (self.ConverToRequest batch_request new_request).new_request = new_request ∧
      (self.ConverToRequest batch_request new_request).batch_request = batch_request ∧
      (self.ConverToRequest batch_request new_request).self = self ∧
      (self.ConverToRequest batch_request new_request).errors = [] :=
  ⟨rfl, rfl, rfl, rfl⟩

/-- C8: the default post-send hook `PerformancGeneratorBasic::PostSend` is a no-op: the
generator after the call is the generator before the call, field for field. -/
theorem PostSend_noop (self : PerformancGeneratorBasic) : self.PostSend = self :=
  rfl

/-! ## Quorum response collector -/

theorem matching_snoc (history : List ResponseMsg) (r : ResponseMsg) (id : String)
    (fp : Bytes) :
    matching (history ++ [r]) id fp
      = matching history id fp + (if r.id = id ∧ r.fingerprint = fp then 1 else 0) := by
  unfold matching
  rw [List.countP_append]
  by_cases h1 : r.id = id <;> by_cases h2 : r.fingerprint = fp <;>
    simp [List.countP_cons, h1, h2]

theorem AddResponseMsg_config (self : PerformancGeneratorBasic) (r : ResponseMsg) :
    (self.AddResponseMsg r).self.config_ = self.config_ := by
  unfold PerformancGeneratorBasic.AddResponseMsg
  simp only []
  split <;> rfl

theorem AddResponseMsg_other (self : PerformancGeneratorBasic) (r : ResponseMsg)
    (id : String) (h : id ≠ r.id) :
    (self.AddResponseMsg r).self.collector_pool_ id = self.collector_pool_ id := by
  unfold PerformancGeneratorBasic.AddResponseMsg
  simp only []
  split <;> simp [Function.update, h]

theorem MayConsensusChangeStatus_reached (self : PerformancGeneratorBasic) (type : Int)
    (n : Nat) (status : TransactionStatue) (hs : status = TransactionStatue.Pending)
    (h : self.config_.f + 1 ≤ n) :
    self.MayConsensusChangeStatus type ((n : Nat) : Int) status
      = (true, TransactionStatue.Committed) := by
  subst hs
  unfold PerformancGeneratorBasic.MayConsensusChangeStatus
  have h2 : (self.config_.f : Int) + 1 ≤ (n : Int) := by omega
  simp [h2]

theorem MayConsensusChangeStatus_below (self : PerformancGeneratorBasic) (type : Int)
    (n : Nat) (status : TransactionStatue) (hs : status = TransactionStatue.Pending)
    (h : n < self.config_.f + 1) :
    self.MayConsensusChangeStatus type ((n : Nat) : Int) status
      = (false, TransactionStatue.Pending) := by
  subst hs
  unfold PerformancGeneratorBasic.MayConsensusChangeStatus
  have h2 : ¬ (self.config_.f : Int) + 1 ≤ (n : Int) := by omega
  simp [h2]

theorem MayConsensusChangeStatus_delivered (self : PerformancGeneratorBasic) (type : Int)
    (count : Int) :
    self.MayConsensusChangeStatus type count TransactionStatue.Committed
      = (true, TransactionStatue.Done) :=
  rfl

theorem MayConsensusChangeStatus_settled (self : PerformancGeneratorBasic) (type : Int)
    (count : Int) (status : TransactionStatue) (h : status = TransactionStatue.Done) :
    self.MayConsensusChangeStatus type count status = (false, TransactionStatue.Done) := by
  subst h
  rfl

theorem AddResponseMsg_fires (self : PerformancGeneratorBasic) (r : ResponseMsg)
    (hs : self.statusOf r.id = TransactionStatue.Pending)
    (hc : self.config_.f + 1 ≤ self.countOf r.id r.fingerprint + 1) :
    (self.AddResponseMsg r).called_back = some r.payload ∧
      (self.AddResponseMsg r).self.statusOf r.id = TransactionStatue.Done := by
  unfold PerformancGeneratorBasic.statusOf at hs
  unfold PerformancGeneratorBasic.countOf at hc
  unfold PerformancGeneratorBasic.AddResponseMsg PerformancGeneratorBasic.statusOf
  cases hp : self.collector_pool_ r.id with
  | none =>
    rw [hp] at hc
    simp only [] at hc
    simp only [Option.getD_none]
    rw [MayConsensusChangeStatus_reached self r.type _ _ rfl hc]
    simp [MayConsensusChangeStatus_delivered]
  | some rec =>
    rw [hp] at hc hs
    simp only [] at hc hs
    simp only [Option.getD_some]
    rw [MayConsensusChangeStatus_reached self r.type _ _ hs hc]
    simp [MayConsensusChangeStatus_delivered, hs]

theorem AddResponseMsg_counts (self : PerformancGeneratorBasic) (r : ResponseMsg)
    (hs : self.statusOf r.id = TransactionStatue.Pending)
    (hc : self.countOf r.id r.fingerprint + 1 < self.config_.f + 1) :
    (self.AddResponseMsg r).called_back = none ∧
      (self.AddResponseMsg r).self.statusOf r.id = TransactionStatue.Pending ∧
      ∀ fp, (self.AddResponseMsg r).self.countOf r.id fp
        = self.countOf r.id fp + (if r.fingerprint = fp then 1 else 0) := by
  unfold PerformancGeneratorBasic.statusOf at hs
  unfold PerformancGeneratorBasic.countOf at hc
  unfold PerformancGeneratorBasic.AddResponseMsg PerformancGeneratorBasic.statusOf
    PerformancGeneratorBasic.countOf
  cases hp : self.collector_pool_ r.id with
  | none =>
    rw [hp] at hc
    simp only [] at hc
    simp only [Option.getD_none]
    rw [MayConsensusChangeStatus_below self r.type _ _ rfl hc]
    refine ⟨by simp, by simp, ?_⟩
    intro fp
    by_cases hf : r.fingerprint = fp
    · subst hf; simp
    · simp [hf, Function.update, Ne.symm hf]
  | some rec =>
    rw [hp] at hc hs
    simp only [] at hc hs
    simp only [Option.getD_some]
    rw [MayConsensusChangeStatus_below self r.type _ _ hs hc]
    refine ⟨by simp, by simp, ?_⟩
    intro fp
    by_cases hf : r.fingerprint = fp
    · subst hf; simp
    · simp [hf, Function.update, Ne.symm hf]

theorem AddResponseMsg_done (self : PerformancGeneratorBasic) (r : ResponseMsg)
    (hs : self.statusOf r.id = TransactionStatue.Done) :
    (self.AddResponseMsg r).called_back = none ∧
      (self.AddResponseMsg r).self.statusOf r.id = TransactionStatue.Done := by
  unfold PerformancGeneratorBasic.statusOf at hs
  unfold PerformancGeneratorBasic.AddResponseMsg PerformancGeneratorBasic.statusOf
  cases hp : self.collector_pool_ r.id with
  | none => rw [hp] at hs; simp at hs
  | some rec =>
    rw [hp] at hs
    simp only [] at hs
    simp only [Option.getD_some]
    rw [MayConsensusChangeStatus_settled self r.type _ _ hs]
    simp [hs]

theorem Delivery.step_invocations (d : Delivery) (r : ResponseMsg) (id : String) :
    (d.step r).invocations id
      = d.invocations id +
        (if (d.self.AddResponseMsg r).called_back.isSome ∧ r.id = id then 1 else 0) := by
  unfold Delivery.step Delivery.invocations
  simp only [List.countP_append]
  cases hcb : (d.self.AddResponseMsg r).called_back with
  | none => simp
  | some p => by_cases hid : r.id = id <;> simp [List.countP_cons, hid]

theorem Collected_step (history : List ResponseMsg) (d : Delivery) (r : ResponseMsg)
    (h : Collected history d) : Collected (history ++ [r]) (d.step r) := by
  intro id
  have hcfg : (d.step r).self.config_ = d.self.config_ := AddResponseMsg_config d.self r
  have hself : (d.step r).self = (d.self.AddResponseMsg r).self := rfl
  rw [hcfg, Delivery.step_invocations]
  by_cases hid : id = r.id
  · subst hid
    rcases h r.id with ⟨hs, hi, hcnt⟩ | ⟨hs, hi, fp, hfp⟩
    · by_cases hq : d.self.config_.f + 1 ≤ d.self.countOf r.id r.fingerprint + 1
      · obtain ⟨hcb, hst⟩ := AddResponseMsg_fires d.self r hs hq
        right
        refine ⟨by rw [hself]; exact hst, by simp [hcb, hi], r.fingerprint, ?_⟩
        rw [matching_snoc]
        have := (hcnt r.fingerprint).1
        simp
        omega
      · obtain ⟨hcb, hst, hco⟩ := AddResponseMsg_counts d.self r hs (by omega)
        left
        refine ⟨by rw [hself]; exact hst, by simp [hcb, hi], ?_⟩
        intro fp
        rw [matching_snoc, hself, hco fp]
        have h1 := (hcnt fp).1
        have h2 := (hcnt fp).2
        by_cases hf : r.fingerprint = fp
        · subst hf
          simp
          omega
        · simp [hf]
          omega
    · obtain ⟨hcb, hst⟩ := AddResponseMsg_done d.self r hs
      right
      refine ⟨by rw [hself]; exact hst, by simp [hcb, hi], fp, ?_⟩
      rw [matching_snoc]
      omega
  · have hpool := AddResponseMsg_other d.self r id hid
    have hst : (d.step r).self.statusOf id = d.self.statusOf id := by
      unfold PerformancGeneratorBasic.statusOf
      rw [hself, hpool]
    have hco : ∀ fp, (d.step r).self.countOf id fp = d.self.countOf id fp := by
      intro fp
      unfold PerformancGeneratorBasic.countOf
      rw [hself, hpool]
    have hm : ∀ fp, matching (history ++ [r]) id fp = matching history id fp := by
      intro fp
      rw [matching_snoc]
      simp [Ne.symm hid]
    have hne : ¬ ((d.self.AddResponseMsg r).called_back.isSome = true ∧ r.id = id) :=
      fun hh => hid hh.2.symm
    rw [hst, if_neg hne]
    rcases h id with ⟨hs, hi, hcnt⟩ | ⟨hs, hi, fp, hfp⟩
    · left
      refine ⟨hs, hi, ?_⟩
      intro fp
      rw [hco, hm]
      exact hcnt fp
    · right
      exact ⟨hs, hi, fp, by rw [hm]; exact hfp⟩

theorem Collected_foldl (requests : List ResponseMsg) :
    ∀ (history : List ResponseMsg) (d : Delivery), Collected history d →
      Collected (history ++ requests) (requests.foldl Delivery.step d) := by
  induction requests with
  | nil => intro history d h; simpa using h
  | cons r rest ih =>
    intro history d h
    have := ih (history ++ [r]) (d.step r) (Collected_step history d r h)
    simpa using this

theorem foldl_step_config (requests : List ResponseMsg) :
    ∀ d : Delivery, (requests.foldl Delivery.step d).self.config_ = d.self.config_ := by
  induction requests with
  | nil => intro d; rfl
  | cons r rest ih =>
    intro d
    rw [List.foldl_cons, ih]
    exact AddResponseMsg_config d.self r

theorem Collected_new (config : ResDBConfig) (replica_communicator system_info : Nat)
    (verifier : Option SignatureVerifier) :
    Collected []
      { self := PerformancGeneratorBasic.new config replica_communicator system_info verifier
        callbacks := [] } := by
  intro id
  left
  refine ⟨rfl, rfl, ?_⟩
  intro fp
  simp [PerformancGeneratorBasic.countOf, PerformancGeneratorBasic.new, matching]

/-- C5: starting from a generator with an empty pool, for every transaction identifier and
every sequence of `AddResponseMsg` calls, the completion callback is invoked at most once
for that identifier, and exactly once if and only if some fingerprint was delivered at
least `f+1` times for it. With threshold 3 and three identical responses for "tx-7", the
callback has not fired after the first or the second delivery and has fired once after
the third. -/
theorem AddResponseMsg_callback_once (config : ResDBConfig)
    (replica_communicator system_info : Nat) (verifier : Option SignatureVerifier)
    (requests : List ResponseMsg) (id : String) :
    (deliverAll (PerformancGeneratorBasic.new config replica_communicator system_info
        verifier) requests).invocations id ≤ 1 ∧
      ((deliverAll (PerformancGeneratorBasic.new config replica_communicator system_info
          verifier) requests).invocations id = 1 ↔
        ∃ fingerprint, config.f + 1 ≤ matching requests id fingerprint) ∧
      (deliverAll (PerformancGeneratorBasic.new sampleConfig 0 0 none) [tx7]).callbacks
        = [] ∧
      (deliverAll (PerformancGeneratorBasic.new sampleConfig 0 0 none) [tx7, tx7]).callbacks
        = [] ∧
      (deliverAll (PerformancGeneratorBasic.new sampleConfig 0 0 none)
        [tx7, tx7, tx7]).callbacks = [("tx-7", [30])] := by
  have hall : Collected requests
      (deliverAll (PerformancGeneratorBasic.new config replica_communicator system_info
        verifier) requests) := by
    have h := Collected_foldl requests [] _
      (Collected_new config replica_communicator system_info verifier)
    rw [List.nil_append] at h
    exact h
  have hc : (deliverAll (PerformancGeneratorBasic.new config replica_communicator
      system_info verifier) requests).self.config_.f = config.f := by
    unfold deliverAll
    rw [foldl_step_config]
    rfl
  have hinv := hall id
  rw [hc] at hinv
  refine ⟨?_, ?_, by decide, by decide, by decide⟩
  · rcases hinv with ⟨_, hi, _⟩ | ⟨_, hi, _⟩ <;> omega
  · rcases hinv with ⟨_, hi, hcnt⟩ | ⟨_, hi, hfp⟩
    · constructor
      · intro h1; omega
      · rintro ⟨fp, hfp⟩
        have := (hcnt fp).2
        omega
    · exact ⟨fun _ => hfp, fun _ => hi⟩

/-! ## Status transition and evaluation gate -/

/-- C7: `StartEval` is idempotent: for every state of the generator, two calls leave the
same state as one call; the second call releases nothing and returns, neither blocking
nor throwing; the two calls together release the gate exactly once precisely when the
evaluation had not been started and the gate was not ready. On a freshly constructed
generator a producer waiting on the gate is blocked, the first call releases the gate
once and returns, the producer then proceeds, and the two calls together release the
gate exactly once. -/
theorem StartEval_idempotent (self : PerformancGeneratorBasic) :
    self.StartEval.self.StartEval.self = self.StartEval.self ∧
      self.StartEval.self.StartEval.releases = 0 ∧
      self.StartEval.self.StartEval.completion = Completion.Returned ∧
      (self.StartEval.releases + self.StartEval.self.StartEval.releases = 1 ↔
        self.eval_started_ = false ∧ self.eval_ready_promise_ = none) ∧
      ∀ (config : ResDBConfig) (replica_communicator system_info : Nat)
        (verifier : Option SignatureVerifier),
        (PerformancGeneratorBasic.new config replica_communicator system_info
            verifier).WaitEvalReady = Completion.Blocked ∧
          (PerformancGeneratorBasic.new config replica_communicator system_info
            verifier).StartEval.releases = 1 ∧
          (PerformancGeneratorBasic.new config replica_communicator system_info
            verifier).StartEval.completion = Completion.Returned ∧
          (PerformancGeneratorBasic.new config replica_communicator system_info
            verifier).StartEval.self.WaitEvalReady = Completion.Returned ∧
          (PerformancGeneratorBasic.new config replica_communicator system_info
              verifier).StartEval.releases +
            (PerformancGeneratorBasic.new config replica_communicator system_info
              verifier).StartEval.self.StartEval.releases = 1 := by
  have hstarted : self.StartEval.self.eval_started_ = true := by
    unfold PerformancGeneratorBasic.StartEval
    cases hst : self.eval_started_ with
    | true => simp [hst]
    | false => cases hp : self.eval_ready_promise_ <;> simp [promise_set_value]
  have hsecond : self.StartEval.self.StartEval
      = { self := self.StartEval.self, releases := 0, completion := Completion.Returned } := by
    generalize self.StartEval.self = s at hstarted
    unfold PerformancGeneratorBasic.StartEval
    simp [hstarted]
  refine ⟨by rw [hsecond], by rw [hsecond], by rw [hsecond], ?_,
    fun config rc si v => ⟨rfl, rfl, rfl, rfl, rfl⟩⟩
  rw [hsecond]
  unfold PerformancGeneratorBasic.StartEval
  cases hst : self.eval_started_ with
  | true => simp
  | false => cases hp : self.eval_ready_promise_ <;> simp [promise_set_value]

end resdb
